import Mathlib

/-!
A shallow embedding of the stork index-v3 build pipeline, checked against its
natural-language specification.

Embedded from the repository sources:
* `remove_surrounding_punctuation` and `build` from
  `stork-index-v3/src/builder/mod.rs`;
* the URL data-source reader from
  `stork-lib/src/index_v3/build/fill_intermediate_entries/data_source_readers/url_data_source_reader.rs`
  (the network fetch is modelled as an explicit input, since the reader's only
  interaction with the network is through the fetched response).

The collaborator modules `fill_intermediate_entries`, `fill_stems`,
`fill_containers`, `intermediate_entry`, `errors` and the `Entry` conversion are
declared but not present in the sources; those are modelled from the
specification, and each such definition says so in its doc comment.
-/

namespace Stork

/-! ## Word normalization (from `builder/mod.rs`) -/

/-- Rust `char::is_ascii_punctuation`: the four ASCII punctuation blocks
`0x21..=0x2f`, `0x3a..=0x40`, `0x5b..=0x60` and `0x7b..=0x7e`. -/
def isAsciiPunctuation (c : Char) : Bool :=
  (0x21 ≤ c.toNat && c.toNat ≤ 0x2f) || (0x3a ≤ c.toNat && c.toNat ≤ 0x40) ||
    (0x5b ≤ c.toNat && c.toNat ≤ 0x60) || (0x7b ≤ c.toNat && c.toNat ≤ 0x7e)

/-- `remove_surrounding_punctuation` from `builder/mod.rs`. The Rust function
collects the input into a `Vec<char>`, pops characters from the front while the
first character is ASCII punctuation (an empty vector reports the non-punctuation
placeholder `'a'` and stops the loop), then pops from the back while the last
character is ASCII punctuation; these two loops are exactly `dropWhile` from the
left followed by `rdropWhile` from the right. -/
def remove_surrounding_punctuation (input : List Char) : List Char :=
  (input.dropWhile isAsciiPunctuation).rdropWhile isAsciiPunctuation

/-- The Rust function takes `&str` and rebuilds a `String` from the remaining
characters. -/
def remove_surrounding_punctuation_string (input : String) : String :=
  ⟨remove_surrounding_punctuation input.data⟩

/-! ## Configuration (the opaque, already-validated input object) -/

/-- A document's declared content type (`stork_config::Filetype`). -/
inductive Filetype
  | PlainText
  | HTML
deriving DecidableEq

/-- Origin of a document's raw content (`stork_config::DataSource`). -/
inductive DataSource
  | Contents (contents : String)
  | FilePath (path : String)
  | URL (url : String)
deriving DecidableEq

/-- One configured document (`stork_config::File`), restricted to the fields the
visible core reads. -/
structure File where
  explicit_source : Option DataSource
  title : String
  filetype : Option Filetype
  html_selector_override : Option String
deriving DecidableEq

/-- `stork_config::TitleBoost`. -/
inductive TitleBoost
  | Minimal
  | Moderate
  | Large
  | Ridiculous
deriving DecidableEq

/-- Global input options read by `build` (`stork_config::InputConfig`). -/
structure InputConfig where
  files : List File
  url_prefix : String
  title_boost : TitleBoost
  break_on_file_error : Bool
deriving DecidableEq

/-- Global output options read by `build` (`stork_config::OutputConfig`). -/
structure OutputConfig where
  excerpt_buffer : Nat
  excerpts_per_result : Nat
  displayed_results_count : Nat
deriving DecidableEq

/-- `stork_config::Config`. -/
structure Config where
  input : InputConfig
  output : OutputConfig
deriving DecidableEq

/-! ## Errors and intermediate entries -/

/-- Modelled from the spec: the document-scoped failure causes listed in §7 —
selector not found, empty word list after normalization, and the reader-level
failures (capability unavailable, fetch failed, errorful status code with the
numeric status preserved, unresolvable content type). The `errors` module
declaring this enum is not under `src/`. -/
inductive WordListGenerationError
  | SelectorNotPresent (selector : String)
  | EmptyWordList
  | FeatureNotAvailable
  | WebPageNotFetched
  | WebPageErrorfulStatusCode (code : Nat)
  | UnknownContentType
deriving DecidableEq

/-- Modelled from the spec: a recoverable, document-scoped failure — the
offending document's identity plus the cause (§3). The `errors` module is not
under `src/`. -/
structure DocumentError where
  file_title : String
  cause : WordListGenerationError
deriving DecidableEq

/-- Modelled from the spec: one normalized word occurrence — surface text
(punctuation-stripped) plus its position within the source (§3). The
`annotated_words_from_string` module is not under `src/`. -/
structure AnnotatedWord where
  word : List Char
  position : Nat
deriving DecidableEq

/-- Modelled from the spec: one successfully normalized document — title plus
the ordered sequence of annotated words (§3). The `intermediate_entry` module
is not under `src/`. -/
structure NormalizedEntry where
  title : String
  annotated_words : List AnnotatedWord
deriving DecidableEq

/-- Modelled from the spec: split the extracted text into whitespace-delimited
tokens, strip leading and trailing ASCII punctuation from each token with
`remove_surrounding_punctuation` (which is under `src/`), and drop tokens that
become empty (§4.2 steps 2–3). Positions are the indices in the resulting
sequence. The `annotated_words_from_string` module is not under `src/`. -/
def annotated_words_from_string (contents : String) : List AnnotatedWord :=
  let words :=
    ((contents.data.splitOnP Char.isWhitespace).map
        remove_surrounding_punctuation).filter (fun w => !w.isEmpty)
  words.enum.map (fun iw => ⟨iw.2, iw.1⟩)

/-- Modelled from the spec: the per-document behavior of the Entry Normalizer
(§4.2): markup filetypes apply the configured selector to isolate relevant text
(a missing selector is the document-scoped "selector not present" error; the
external HTML parser is modelled as a substring check on the flat buffer), the
token sequence is produced by `annotated_words_from_string`, and an empty word
sequence is the document-scoped "no words in word list" error. Sources that
require file or network I/O go through the reader capability, modelled here as
the uniform capability-unavailable reader failure (§6). The
`fill_intermediate_entries` module is not under `src/`. -/
def normalizeDocument (f : File) : Except DocumentError NormalizedEntry :=
  match f.explicit_source with
  | some (DataSource.Contents contents) =>
    let selectorOk :=
      match f.filetype with
      | some Filetype.HTML =>
        match f.html_selector_override with
        | some sel =>
          if sel.data <:+: contents.data then Except.ok ()
          else Except.error (DocumentError.mk f.title
            (WordListGenerationError.SelectorNotPresent sel))
        | none => Except.ok ()
      | _ => Except.ok ()
    match selectorOk with
    | Except.error e => Except.error e
    | Except.ok _ =>
      let words := annotated_words_from_string contents
      if words.isEmpty then
        Except.error (DocumentError.mk f.title WordListGenerationError.EmptyWordList)
      else
        Except.ok (NormalizedEntry.mk f.title words)
  | _ =>
    Except.error (DocumentError.mk f.title WordListGenerationError.FeatureNotAvailable)

/-- Mirrors `fill_intermediate_entries` (module not under `src/`). Modelled from
the spec: invoke the Entry Normalizer across all configured documents,
accumulating `NormalizedEntry` successes and `DocumentError` failures
independently — a single document's failure never halts processing of the
remaining documents, and the stage itself is never build-fatal (§4.5 step 2).
Returns the pair (accumulated entries, accumulated errors), both in document
configuration order. -/
def fill_intermediate_entries (config : Config) :
    List NormalizedEntry × List DocumentError :=
  (config.input.files.filterMap (fun f => (normalizeDocument f).toOption),
    config.input.files.filterMap (fun f =>
      match normalizeDocument f with
      | Except.error e => some e
      | Except.ok _ => none))

/-! ## Stemmer and container builder -/

/-- Modelled from the spec: the stemming algorithm itself is explicitly an
implementation detail; the spec pins down only that it is a deterministic,
locale-stable pure function (§4.3, §9 open question). Modelled as a fixed
deterministic function on the word's characters. -/
def stemWord (w : List Char) : List Char :=
  w.map Char.toLower

/-- Mirrors `fill_stems` (module not under `src/`). Modelled from the spec: a
pure fold over every annotated word of every entry, producing the mapping from
stem to the set of distinct surface forms seen across all entries (§4.3). -/
def fill_stems (entries : List NormalizedEntry) :
    List (List Char × List (List Char)) :=
  let allWords := (entries.map (fun e => e.annotated_words.map (·.word))).flatten
  ((allWords.map stemWord).dedup).map (fun st =>
    (st, (allWords.filter (fun w => stemWord w = st)).dedup))

/-- Modelled from the spec: the per-stem aggregate of all corpus occurrences of
that stem's surface forms, each occurrence carrying document and position
provenance (§3, §4.4). -/
structure Container where
  stem : List Char
  occurrences : List (Nat × Nat)
deriving DecidableEq

/-- Mirrors `fill_containers` (module not under `src/`). Modelled from the
spec: one `Container` per distinct stem, recording every occurrence (document
reference + position) of any surface form mapping to that stem, in corpus
document order then in-document word order (§4.4). The configuration argument
mirrors the call in `build`; the spec gives the container builder no
configuration-dependent behavior. -/
def fill_containers (_config : Config) (entries : List NormalizedEntry)
    (stems : List (List Char × List (List Char))) : List Container :=
  stems.map (fun st =>
    Container.mk st.1
      ((entries.enum.map (fun ie =>
        (ie.2.annotated_words.filter (fun aw => stemWord aw.word = st.1)).map
          (fun aw => (ie.1, aw.position)))).flatten))

/-! ## Index assembly (`build` from `builder/mod.rs`) -/

/-- Public, index-facing document record. Modelled from the spec: derived 1:1
from a `NormalizedEntry` at assembly time (§3); the `Entry::from` conversion is
not under `src/`. -/
structure Entry where
  title : String
deriving DecidableEq

/-- Modelled from the spec: the `Entry::from(&NormalizedEntry)` conversion,
derived 1:1 at assembly time (§3). -/
def Entry.ofNormalizedEntry (e : NormalizedEntry) : Entry :=
  Entry.mk e.title

/-- Output-tuning values copied verbatim from configuration (`PassthroughConfig`
construction at `builder/mod.rs:45`). -/
structure PassthroughConfig where
  url_prefix : String
  title_boost : TitleBoost
  excerpt_buffer : Nat
  excerpts_per_result : Nat
  displayed_results_count : Nat
deriving DecidableEq

/-- The final compiled artifact (`Index` construction at `builder/mod.rs:53`). -/
structure Index where
  entries : List Entry
  containers : List Container
  config : PassthroughConfig
  errors : List DocumentError
deriving DecidableEq

/-- The build-fatal error enum. Modelled from the spec: exactly the variants
`NoValidFiles` and `DocumentErrors(Index)`, the latter carrying the
built-but-rejected index (§6, §7); the `errors` module is not under `src/`. -/
inductive IndexGenerationError
  | NoValidFiles
  | DocumentErrors (index : Index)
deriving DecidableEq

/-- `build` from `builder/mod.rs:27-65`, statement by statement. The nudger
call is advisory console output only and never affects the pipeline (§4.5 step
1), so it has no counterpart in the pure embedding; its place in the execution
order is kept by `buildTrace` below. `fill_intermediate_entries` is modelled as
never build-fatal (spec §4.5 step 2), so the `?` on its call never propagates
an error. -/
def build (config : Config) : Except IndexGenerationError Index :=
  let res := fill_intermediate_entries config
  let intermediate_entries := res.1
  let document_errors := res.2
  let stems := fill_stems intermediate_entries
  let containers := fill_containers config intermediate_entries stems
  let entries := intermediate_entries.map Entry.ofNormalizedEntry
  if entries.isEmpty then
    Except.error IndexGenerationError.NoValidFiles
  else
    let passthrough_config : PassthroughConfig :=
      ⟨ config.input.url_prefix, config.input.title_boost,
        config.output.excerpt_buffer, config.output.excerpts_per_result,
        config.output.displayed_results_count⟩
    let index : Index := ⟨entries, containers, passthrough_config, document_errors⟩
    if config.input.break_on_file_error && !index.errors.isEmpty then
      Except.error (IndexGenerationError.DocumentErrors index)
    else
      Except.ok index

/-- The pipeline stages of a `build` invocation. -/
inductive Stage
  | nudger
  | fillIntermediateEntries
  | fillStems
  | fillContainers
  | assemble
deriving DecidableEq

/-- The sequence of stages a `build` invocation executes, in the statement
order of `builder/mod.rs:27-65`: the nudger, `fill_intermediate_entries`,
`fill_stems` and `fill_containers` run unconditionally (lines 28, 35, 36, 37);
the `entries.is_empty()` check at line 41 returns `NoValidFiles` before index
assembly is reached, so assembly appears in the trace only when the entry list
is nonempty. -/
def buildTrace (config : Config) : List Stage :=
  let intermediate_entries := (fill_intermediate_entries config).1
  [Stage.nudger, Stage.fillIntermediateEntries, Stage.fillStems,
      Stage.fillContainers] ++
    (if (intermediate_entries.map Entry.ofNormalizedEntry).isEmpty then []
     else [Stage.assemble])

/-- The passthrough configuration `build` copies verbatim from the
configuration; named so theorems can speak about the assembled index. -/
def passthroughOf (config : Config) : PassthroughConfig :=
  ⟨ config.input.url_prefix, config.input.title_boost,
    config.output.excerpt_buffer, config.output.excerpts_per_result,
    config.output.displayed_results_count⟩

/-- The index `build` assembles when the entry list is nonempty, exactly as
constructed at `builder/mod.rs:53-58`. -/
def assembledIndex (config : Config) : Index :=
  let res := fill_intermediate_entries config
  ⟨res.1.map Entry.ofNormalizedEntry,
    fill_containers config res.1 (fill_stems res.1),
    passthroughOf config, res.2⟩

/-! ## Concrete configurations, mirroring the fixtures in `builder/mod.rs`'s
tests -/

/-- The `generate_invalid_file_missing_selector` fixture: empty inline contents,
HTML filetype, selector override `.article`. -/
def missing_selector_file : File :=
  ⟨some (DataSource.Contents ""), "Missing Selector", some Filetype.HTML,
    some ".article"⟩

/-- The `generate_invalid_file_empty_contents` fixture: empty inline contents,
plain-text filetype. -/
def empty_contents_file : File :=
  ⟨some (DataSource.Contents ""), "Empty Contents", some Filetype.PlainText, none⟩

/-- The `generate_valid_file` fixture: inline contents `This is contents`,
plain-text filetype. -/
def valid_file : File :=
  ⟨some (DataSource.Contents "This is contents"), "Successful File",
    some Filetype.PlainText, none⟩

/-- Default output options (excerpt buffer 8, excerpts per result 5, displayed
results count 10). -/
def defaultOutput : OutputConfig := ⟨8, 5, 10⟩

/-- One failing document and one succeeding document, fail-fast disabled. -/
def mixedConfig : Config :=
  ⟨⟨[missing_selector_file, valid_file], "", TitleBoost.Moderate, false⟩,
    defaultOutput⟩

/-- One failing document and one succeeding document, fail-fast enabled. -/
def mixedStrictConfig : Config :=
  ⟨⟨[missing_selector_file, valid_file], "", TitleBoost.Moderate, true⟩,
    defaultOutput⟩

/-- Two failing documents, fail-fast disabled. -/
def allFailConfig : Config :=
  ⟨⟨[empty_contents_file, missing_selector_file], "", TitleBoost.Moderate, false⟩,
    defaultOutput⟩

/-- Two failing documents, fail-fast enabled. -/
def allFailStrictConfig : Config :=
  ⟨⟨[empty_contents_file, missing_selector_file], "", TitleBoost.Moderate, true⟩,
    defaultOutput⟩

/-! ## The URL data-source reader (`url_data_source_reader.rs`) -/

/-- A parsed MIME type, as far as the reader inspects it: top-level type and
subtype (the `mime` crate's `type_()` and `subtype()`). -/
structure Mime where
  type_ : String
  subtype : String
deriving DecidableEq

/-- Models the external `mime` crate's parser as far as the reader relies on
it: the essence before any `;`-separated parameters, with surrounding spaces
trimmed, must be a `type/subtype` pair with both parts nonempty; anything else
fails to parse. -/
def parseMime (s : String) : Option Mime :=
  let essence :=
    (((s.data.splitOnP (fun c => c = ';')).headD []).dropWhile
        (fun c => c = ' ')).rdropWhile (fun c => c = ' ')
  match essence.splitOnP (fun c => c = '/') with
  | [t, st] =>
    if t.isEmpty || st.isEmpty then none else some (Mime.mk ⟨t⟩ ⟨st⟩)
  | _ => none

/-- Models `http::HeaderValue::to_str`, which succeeds only when every byte of
the header value is visible ASCII (32..=126). -/
def headerValueToStr (bytes : List Nat) : Option String :=
  if bytes.all (fun b => 32 ≤ b && b ≤ 126) then
    some ⟨bytes.map Char.ofNat⟩
  else none

/-- `filetype_from_mime` from `url_data_source_reader.rs:20-26`. -/
def filetype_from_mime (m : Mime) : Option Filetype :=
  match m.type_, m.subtype with
  | "text", "plain" => some Filetype.PlainText
  | "text", "html" => some Filetype.HTML
  | _, _ => none

/-- The reader configuration as the URL reader uses it: it reads only
`config.file.filetype`. -/
structure ReaderConfig where
  file : File
deriving DecidableEq

/-- Raw content resolved from a data source (`ReadResult`). -/
structure ReadResult where
  buffer : String
  filetype : Option Filetype
  frontmatter_fields : Option (List (String × String))
deriving DecidableEq

/-- The response a successful `reqwest::blocking::get` hands the reader: the
HTTP status, the raw bytes of the `Content-Type` header if present, and the
body text. -/
structure HttpResponse where
  status : Nat
  content_type : Option (List Nat)
  body : String
deriving DecidableEq

/-- The outcome of the network fetch, an input to the pure embedding of the
reader: either the transport failed or a response arrived. -/
inductive FetchOutcome
  | failed
  | response (resp : HttpResponse)
deriving DecidableEq

/-- The response's content type as the reader resolves it: the `Content-Type`
header must be present, hold visible ASCII, and parse as a MIME type
(`url_data_source_reader.rs:39-46`). -/
def resolvedContentType (resp : HttpResponse) : Option Mime :=
  match resp.content_type with
  | none => none
  | some bytes =>
    match headerValueToStr bytes with
    | none => none
    | some s => parseMime s

/-- `read` from `url_data_source_reader.rs:12-60` (the `build-v3-web-scraping`
branch), with the fetch outcome as an explicit input. A failed fetch is
`WebPageNotFetched` (line 29). `error_for_status_ref` fails exactly on
client-error and server-error statuses (400..=599), and for such errors
`error.status()` is always the present status, so the mapped error is
`WebPageErrorfulStatusCode` with the numeric code (lines 31-37; the
`WebPageNotFetched` fallback arm there is unreachable). A missing,
non-visible-ASCII, or unparseable `Content-Type` header is
`UnknownContentType` (lines 39-46). On success the buffer is the body and the
filetype is the declared one, or else the one derived from the MIME type
(lines 48-59). -/
def url_read (_url : String) (config : ReaderConfig) (fetch : FetchOutcome) :
    Except WordListGenerationError ReadResult :=
  match fetch with
  | FetchOutcome.failed => Except.error WordListGenerationError.WebPageNotFetched
  | FetchOutcome.response resp =>
    if 400 ≤ resp.status ∧ resp.status ≤ 599 then
      Except.error (WordListGenerationError.WebPageErrorfulStatusCode resp.status)
    else
      match resp.content_type with
      | none => Except.error WordListGenerationError.UnknownContentType
      | some bytes =>
        match headerValueToStr bytes with
        | none => Except.error WordListGenerationError.UnknownContentType
        | some s =>
          match parseMime s with
          | none => Except.error WordListGenerationError.UnknownContentType
          | some mime_type =>
            Except.ok
              ⟨resp.body,
                (config.file.filetype).or (filetype_from_mime mime_type), none⟩

/-- `read` from `url_data_source_reader.rs:4-9`: with the web-scraping
capability compiled out, the reader uniformly reports the capability as
unavailable. -/
def url_read_feature_disabled (_url : String) (_config : ReaderConfig) :
    Except WordListGenerationError ReadResult :=
  Except.error WordListGenerationError.FeatureNotAvailable

/-- A reader configuration that declares no filetype. -/
def undeclaredReaderConfig : ReaderConfig :=
  ⟨⟨none, "Web Page", none, none⟩⟩

/-- A response with an error-class status and no content type. -/
def resp404 : HttpResponse := ⟨404, none, ""⟩

/-- A successful response whose declared MIME type is neither `text/plain` nor
`text/html`. -/
def respJson : HttpResponse :=
  ⟨200, some ("application/json".data.map Char.toNat), "not text"⟩

/-! ## Theorems -/

theorem rdropWhile_append_rtakeWhile {α : Type} (p : α → Bool) (l : List α) :
    l.rdropWhile p ++ l.rtakeWhile p = l := by
  simp only [List.rdropWhile, List.rtakeWhile]
  rw [← List.reverse_append, List.takeWhile_append_dropWhile, List.reverse_reverse]

theorem dropWhile_of_dropWhile_eq_self {α : Type} (p : α → Bool) (l : List α)
    (hl : List.dropWhile p l = l) :
    List.dropWhile p (l.rdropWhile p) = l.rdropWhile p := by
  rcases hX : l.rdropWhile p with _ | ⟨y, ys⟩
  · simp
  · obtain ⟨t, ht⟩ : ∃ t, (y :: ys) ++ t = l := by
      have h := List.rdropWhile_prefix p l
      rw [hX] at h
      exact h
    have hd : List.dropWhile p ((y :: ys) ++ t) = (y :: ys) ++ t := by rw [ht, hl]
    rw [List.cons_append, List.dropWhile_cons] at hd
    by_cases hpy : p y = true
    · rw [if_pos hpy] at hd
      have h1 : (List.dropWhile p (ys ++ t)).length ≤ (ys ++ t).length :=
        (List.dropWhile_suffix p).length_le
      rw [hd] at h1
      simp only [List.length_cons, List.length_append] at h1
      omega
    · rw [List.dropWhile_cons, if_neg hpy]

theorem build_eq (config : Config) :
    build config =
      if (((fill_intermediate_entries config).1).map Entry.ofNormalizedEntry).isEmpty then
        Except.error IndexGenerationError.NoValidFiles
      else if config.input.break_on_file_error
          && !((fill_intermediate_entries config).2).isEmpty then
        Except.error (IndexGenerationError.DocumentErrors (assembledIndex config))
      else
        Except.ok (assembledIndex config) := rfl

theorem except_toOption_error {ε α : Type} (e : ε) :
    (Except.error e : Except ε α).toOption = none := rfl

theorem except_toOption_ok {ε α : Type} (a : α) :
    (Except.ok a : Except ε α).toOption = some a := rfl

theorem except_isOk_error {ε α : Type} (e : ε) :
    (Except.error e : Except ε α).isOk = false := rfl

theorem except_isOk_ok {ε α : Type} (a : α) :
    (Except.ok a : Except ε α).isOk = true := rfl

theorem length_filterMap_ok (l : List File) :
    (l.filterMap (fun f => (normalizeDocument f).toOption)).length =
      l.countP (fun f => (normalizeDocument f).isOk) := by
  induction l with
  | nil => rfl
  | cons a l ih =>
    rw [List.filterMap_cons, List.countP_cons]
    cases h : normalizeDocument a with
    | error e =>
      simp only [h, except_toOption_error, except_isOk_error]
      simp [ih]
    | ok v =>
      simp only [h, except_toOption_ok, except_isOk_ok]
      simp [ih]

theorem length_filterMap_err (l : List File) :
    (l.filterMap (fun f =>
      match normalizeDocument f with
      | Except.error e => some e
      | Except.ok _ => none)).length =
      l.countP (fun f => !(normalizeDocument f).isOk) := by
  induction l with
  | nil => rfl
  | cons a l ih =>
    rw [List.filterMap_cons, List.countP_cons]
    cases h : normalizeDocument a with
    | error e =>
      simp only [h, except_isOk_error]
      simp [ih]
    | ok v =>
      simp only [h, except_isOk_ok]
      simp [ih]

theorem filterMap_ok_ne_nil {l : List File}
    (h : ∃ f ∈ l, (normalizeDocument f).isOk = true) :
    l.filterMap (fun f => (normalizeDocument f).toOption) ≠ [] := by
  obtain ⟨f, hf, hok⟩ := h
  intro hnil
  rw [List.filterMap_eq_nil_iff] at hnil
  have hnone := hnil f hf
  cases hcase : normalizeDocument f with
  | error e =>
    rw [hcase, except_isOk_error] at hok
    exact Bool.noConfusion hok
  | ok v =>
    rw [hcase, except_toOption_ok] at hnone
    exact Option.noConfusion hnone

theorem filterMap_ok_eq_nil {l : List File}
    (h : ∀ f ∈ l, (normalizeDocument f).isOk = false) :
    l.filterMap (fun f => (normalizeDocument f).toOption) = [] := by
  rw [List.filterMap_eq_nil_iff]
  intro f hf
  cases hcase : normalizeDocument f with
  | error e => exact except_toOption_error e
  | ok v =>
    have hfalse := h f hf
    rw [hcase, except_isOk_ok] at hfalse
    exact Bool.noConfusion hfalse

/-- C1: for every configuration whose document set contains at least one
document that normalizes successfully and at least one that fails normalization
(and fail-fast is not enabled), `build` returns a successful `Index` in which
the number of errors equals the number of failing documents and the number of
entries equals the number of succeeding documents. -/
theorem build_failure_tolerance (config : Config)
    (hflag : config.input.break_on_file_error = false)
    (hsucc : ∃ f ∈ config.input.files, (normalizeDocument f).isOk = true)
    (_hfail : ∃ f ∈ config.input.files, (normalizeDocument f).isOk = false) :
    ∃ index, build config = Except.ok index ∧
      index.errors.length =
        config.input.files.countP (fun f => !(normalizeDocument f).isOk) ∧
      index.entries.length =
        config.input.files.countP (fun f => (normalizeDocument f).isOk) := by
  have hne : (fill_intermediate_entries config).1 ≠ [] := filterMap_ok_ne_nil hsucc
  have hmap : ((((fill_intermediate_entries config).1).map
      Entry.ofNormalizedEntry).isEmpty) = false := by
    rcases hc : (fill_intermediate_entries config).1 with _ | ⟨a, l⟩
    · exact absurd hc hne
    · rfl
  refine ⟨assembledIndex config, ?_, ?_, ?_⟩
  · rw [build_eq, hmap, hflag]
    simp
  · exact length_filterMap_err config.input.files
  · show (((fill_intermediate_entries config).1).map Entry.ofNormalizedEntry).length = _
    rw [List.length_map]
    exact length_filterMap_ok config.input.files

/-- C1 witness: the mixed configuration (one failing document, one succeeding
document, fail-fast disabled) satisfies the hypotheses, and `build` succeeds
with one error and one entry. -/
theorem build_failure_tolerance_witness :
    mixedConfig.input.break_on_file_error = false ∧
    (∃ index, build mixedConfig = Except.ok index ∧
      index.errors.length =
        mixedConfig.input.files.countP (fun f => !(normalizeDocument f).isOk) ∧
      index.entries.length =
        mixedConfig.input.files.countP (fun f => (normalizeDocument f).isOk)) :=
  ⟨rfl, build_failure_tolerance mixedConfig rfl
    ⟨valid_file, by decide, by decide⟩
    ⟨missing_selector_file, by decide, by decide⟩⟩

/-- C2 counterexample: with every document failing and fail-fast enabled, the
flag is set and the accumulated error list is non-empty, yet `build` returns
`NoValidFiles`, not `DocumentErrors` — the claimed equivalence fails because the
empty-entry check precedes the fail-fast check. -/
theorem build_document_errors_iff_counterexample :
    allFailStrictConfig.input.break_on_file_error = true ∧
    (fill_intermediate_entries allFailStrictConfig).2 ≠ [] ∧
    build allFailStrictConfig = Except.error IndexGenerationError.NoValidFiles ∧
    ¬∃ index, build allFailStrictConfig =
        Except.error (IndexGenerationError.DocumentErrors index) := by
  have hb : build allFailStrictConfig =
      Except.error IndexGenerationError.NoValidFiles := rfl
  refine ⟨rfl, by decide, hb, ?_⟩
  intro hcontra
  obtain ⟨index, h⟩ := hcontra
  rw [hb] at h
  injection h with h2
  exact IndexGenerationError.noConfusion h2

/-- C2 (amended): provided at least one document normalized successfully,
`build` returns the `DocumentErrors` condition iff the break-on-file-error flag
is set and the accumulated error list is non-empty; the carried index is
exactly the fully-assembled index (entries from all successfully normalized
documents, the accumulated errors attached), and otherwise `build` returns that
index successfully. -/
theorem build_document_errors_iff (config : Config)
    (h : (fill_intermediate_entries config).1 ≠ []) :
    ((∃ index, build config =
        Except.error (IndexGenerationError.DocumentErrors index)) ↔
      (config.input.break_on_file_error = true ∧
        (fill_intermediate_entries config).2 ≠ [])) ∧
    (∀ index, build config =
        Except.error (IndexGenerationError.DocumentErrors index) →
      index = assembledIndex config) ∧
    ((config.input.break_on_file_error = false ∨
        (fill_intermediate_entries config).2 = []) →
      build config = Except.ok (assembledIndex config)) ∧
    (assembledIndex config).entries =
      ((fill_intermediate_entries config).1).map Entry.ofNormalizedEntry ∧
    (assembledIndex config).errors = (fill_intermediate_entries config).2 := by
  have hmap : ((((fill_intermediate_entries config).1).map
      Entry.ofNormalizedEntry).isEmpty) = false := by
    rcases hc : (fill_intermediate_entries config).1 with _ | ⟨a, l⟩
    · exact absurd hc h
    · rfl
  have hbuild : build config =
      if config.input.break_on_file_error
          && !((fill_intermediate_entries config).2).isEmpty then
        Except.error (IndexGenerationError.DocumentErrors (assembledIndex config))
      else Except.ok (assembledIndex config) := by
    rw [build_eq, hmap]
    simp
  by_cases hcond : (config.input.break_on_file_error
      && !((fill_intermediate_entries config).2).isEmpty) = true
  · rw [hcond, if_pos rfl] at hbuild
    obtain ⟨hflag, herr⟩ := Bool.and_eq_true_iff.mp hcond
    refine ⟨⟨fun _ => ⟨hflag, ?_⟩, fun _ => ⟨assembledIndex config, hbuild⟩⟩,
      fun index hidx => ?_, fun hcases => ?_, rfl, rfl⟩
    · intro hnil
      rw [← List.isEmpty_iff] at hnil
      rw [hnil] at herr
      exact Bool.noConfusion herr
    · rw [hbuild] at hidx
      injection hidx with h2
      injection h2 with h3
      exact h3.symm
    · rcases hcases with hflag2 | hnil
      · rw [hflag2] at hflag
        exact Bool.noConfusion hflag
      · rw [← List.isEmpty_iff] at hnil
        rw [hnil] at herr
        exact Bool.noConfusion herr
  · rw [if_neg hcond] at hbuild
    have hcond2 := hcond
    rw [Bool.and_eq_true_iff] at hcond2
    refine ⟨⟨fun hex => ?_, fun hand => ?_⟩, fun index hidx => ?_,
      fun _ => hbuild, rfl, rfl⟩
    · obtain ⟨index, hidx⟩ := hex
      rw [hbuild] at hidx
      exact Except.noConfusion hidx
    · obtain ⟨hflag, herr⟩ := hand
      apply absurd _ hcond2
      refine ⟨hflag, ?_⟩
      rcases hc : (fill_intermediate_entries config).2 with _ | ⟨a, l⟩
      · exact absurd hc herr
      · rfl
    · rw [hbuild] at hidx
      exact Except.noConfusion hidx

/-- C2 witness: the mixed strict configuration (one failure, one success,
fail-fast enabled) produces the `DocumentErrors` condition. -/
theorem build_document_errors_iff_witness :
    ∃ index, build mixedStrictConfig =
      Except.error (IndexGenerationError.DocumentErrors index) :=
  (build_document_errors_iff mixedStrictConfig (by decide)).1.mpr
    ⟨rfl, by decide⟩

/-- C3: for every configuration whose documents all fail normalization, `build`
returns the `NoValidFiles` build-fatal condition, which carries no index. -/
theorem build_all_fail_no_valid_files (config : Config)
    (h : ∀ f ∈ config.input.files, (normalizeDocument f).isOk = false) :
    build config = Except.error IndexGenerationError.NoValidFiles := by
  rw [build_eq]
  have hnil : (fill_intermediate_entries config).1 = [] := filterMap_ok_eq_nil h
  rw [hnil]
  rfl

/-- C3 witness: both documents of the all-failing configuration fail, and
`build` returns `NoValidFiles`. -/
theorem build_all_fail_no_valid_files_witness :
    build allFailConfig = Except.error IndexGenerationError.NoValidFiles :=
  build_all_fail_no_valid_files allFailConfig (by decide)

/-- C6 counterexample: on a configuration where the normalized entry set is
empty, `build` does fail with `NoValidFiles`, but the stemmer and container
builder stages are nonetheless executed — the emptiness check at
`builder/mod.rs:41` comes after the `fill_stems` and `fill_containers` calls at
lines 36-37, so they are not skipped as claimed. -/
theorem build_stage_order_counterexample :
    (fill_intermediate_entries allFailConfig).1 = [] ∧
    build allFailConfig = Except.error IndexGenerationError.NoValidFiles ∧
    Stage.fillStems ∈ buildTrace allFailConfig ∧
    Stage.fillContainers ∈ buildTrace allFailConfig := by
  refine ⟨rfl, rfl, ?_, ?_⟩ <;> decide

/-- C6 (amended): the stemmer and container builder run unconditionally, before
the emptiness check; when the normalized entry set is empty, `build` then fails
with `NoValidFiles` and assembly is not reached. -/
theorem build_stage_order (config : Config) :
    Stage.fillStems ∈ buildTrace config ∧
    Stage.fillContainers ∈ buildTrace config ∧
    ((fill_intermediate_entries config).1 = [] →
      build config = Except.error IndexGenerationError.NoValidFiles ∧
      Stage.assemble ∉ buildTrace config) := by
  refine ⟨?_, ?_, fun h => ⟨?_, ?_⟩⟩
  · simp [buildTrace]
  · simp [buildTrace]
  · rw [build_eq, h]
    rfl
  · simp [buildTrace, h]

/-- C6 witness: on the all-failing configuration the inner hypothesis holds,
`build` fails with `NoValidFiles`, and assembly does not appear in the trace. -/
theorem build_stage_order_witness :
    build allFailConfig = Except.error IndexGenerationError.NoValidFiles ∧
    Stage.assemble ∉ buildTrace allFailConfig :=
  (build_stage_order allFailConfig).2.2 (by decide)

/-- C7: every `build` outcome is a success, the `NoValidFiles` condition, or
the `DocumentErrors` condition carrying the built-but-rejected index; no other
failure is surfaced. -/
theorem build_error_variants (config : Config) :
    build config = Except.error IndexGenerationError.NoValidFiles ∨
    build config =
      Except.error (IndexGenerationError.DocumentErrors (assembledIndex config)) ∨
    build config = Except.ok (assembledIndex config) := by
  rw [build_eq]
  by_cases h1 : ((((fill_intermediate_entries config).1).map
      Entry.ofNormalizedEntry).isEmpty) = true
  · left
    rw [if_pos h1]
  · right
    rw [if_neg h1]
    by_cases h2 : (config.input.break_on_file_error
        && !((fill_intermediate_entries config).2).isEmpty) = true
    · left
      rw [if_pos h2]
    · right
      rw [if_neg h2]

/-- C4: `remove_surrounding_punctuation` is idempotent, and its result is the
contiguous middle of the input — the input decomposes as a leading run of ASCII
punctuation, then the result unchanged, then a trailing run of ASCII
punctuation, so interior characters (punctuation included) are never removed. -/
theorem remove_surrounding_punctuation_spec (input : List Char) :
    remove_surrounding_punctuation (remove_surrounding_punctuation input) =
      remove_surrounding_punctuation input ∧
    ∃ leading trailing,
      input = leading ++ remove_surrounding_punctuation input ++ trailing ∧
      (∀ c ∈ leading, isAsciiPunctuation c = true) ∧
      (∀ c ∈ trailing, isAsciiPunctuation c = true) := by
  constructor
  · show ((((input.dropWhile isAsciiPunctuation).rdropWhile
        isAsciiPunctuation).dropWhile isAsciiPunctuation).rdropWhile
        isAsciiPunctuation) = _
    rw [dropWhile_of_dropWhile_eq_self isAsciiPunctuation
        (input.dropWhile isAsciiPunctuation)
        (List.dropWhile_idempotent isAsciiPunctuation input),
      List.rdropWhile_idempotent]
    rfl
  · refine ⟨input.takeWhile isAsciiPunctuation,
      (input.dropWhile isAsciiPunctuation).rtakeWhile isAsciiPunctuation,
      ?_, ?_, ?_⟩
    · have h2 : remove_surrounding_punctuation input ++
          (input.dropWhile isAsciiPunctuation).rtakeWhile isAsciiPunctuation =
          input.dropWhile isAsciiPunctuation :=
        rdropWhile_append_rtakeWhile isAsciiPunctuation
          (input.dropWhile isAsciiPunctuation)
      rw [List.append_assoc, h2, List.takeWhile_append_dropWhile]
    · exact fun c hc => List.mem_takeWhile_imp hc
    · exact fun c hc => List.mem_rtakeWhile_imp hc

/-- C4 witness: the theorem instantiated at the concrete token `..an,ex!..`,
whose stripped form `an,ex` keeps the interior punctuation. -/
theorem remove_surrounding_punctuation_spec_witness :
    (remove_surrounding_punctuation
        (remove_surrounding_punctuation "..an,ex!..".data) =
      remove_surrounding_punctuation "..an,ex!..".data ∧
    ∃ leading trailing,
      "..an,ex!..".data =
        leading ++ remove_surrounding_punctuation "..an,ex!..".data ++ trailing ∧
      (∀ c ∈ leading, isAsciiPunctuation c = true) ∧
      (∀ c ∈ trailing, isAsciiPunctuation c = true)) ∧
    remove_surrounding_punctuation "..an,ex!..".data = "an,ex".data :=
  ⟨remove_surrounding_punctuation_spec ("..an,ex!..".data), by decide⟩

/-- C5: on a token consisting entirely of ASCII punctuation — the empty token
included — `remove_surrounding_punctuation` returns the empty result. The
function is total by construction, which is the embedding of "terminates
without panicking": the source's first/last lookups substitute the
non-punctuation placeholder `'a'` on an empty sequence and the loops exit. -/
theorem remove_surrounding_punctuation_all_punct (input : List Char)
    (h : ∀ c ∈ input, isAsciiPunctuation c = true) :
    remove_surrounding_punctuation input = [] := by
  show (input.dropWhile isAsciiPunctuation).rdropWhile isAsciiPunctuation = []
  rw [List.dropWhile_eq_nil_iff.mpr h]
  rfl

/-- C5 witness: the all-punctuation token `!?.,` satisfies the hypothesis and
strips to the empty result; the empty token does as well. -/
theorem remove_surrounding_punctuation_all_punct_witness :
    (∀ c ∈ "!?.,".data, isAsciiPunctuation c = true) ∧
    remove_surrounding_punctuation "!?.,".data = [] ∧
    remove_surrounding_punctuation "".data = [] :=
  ⟨by decide, remove_surrounding_punctuation_all_punct "!?.,".data (by decide),
    remove_surrounding_punctuation_all_punct "".data (by decide)⟩

/-- C8: the URL reader fails with the unknown-content-type error exactly when a
response arrived, its status is not error-class, and its content type cannot be
resolved (the `Content-Type` header is missing, not visible ASCII, or does not
parse as a MIME type); in particular such a response never yields a successful
`ReadResult`. -/
theorem url_read_unknown_content_type (url : String) (config : ReaderConfig)
    (fetch : FetchOutcome) :
    url_read url config fetch =
        Except.error WordListGenerationError.UnknownContentType ↔
      ∃ resp, fetch = FetchOutcome.response resp ∧
        ¬(400 ≤ resp.status ∧ resp.status ≤ 599) ∧
        resolvedContentType resp = none := by
  cases fetch with
  | failed => simp [url_read]
  | response resp =>
    simp only [url_read]
    by_cases hs : 400 ≤ resp.status ∧ resp.status ≤ 599
    · rw [if_pos hs]
      simp [hs]
    · rw [if_neg hs]
      cases hct : resp.content_type with
      | none =>
        simp [resolvedContentType, hct]
        omega
      | some bytes =>
        cases hstr : headerValueToStr bytes with
        | none =>
          simp [resolvedContentType, hct, hstr]
          omega
        | some s =>
          cases hm : parseMime s with
          | none =>
            simp [resolvedContentType, hct, hstr, hm]
            omega
          | some m => simp [resolvedContentType, hct, hstr, hm, hs]

/-- C9: when the fetch succeeds but the response's status is error-class
(400..=599), the URL reader fails with the errorful-status-code error carrying
that numeric status. -/
theorem url_read_errorful_status (url : String) (config : ReaderConfig)
    (resp : HttpResponse) (h4 : 400 ≤ resp.status) (h5 : resp.status ≤ 599) :
    url_read url config (FetchOutcome.response resp) =
      Except.error
        (WordListGenerationError.WebPageErrorfulStatusCode resp.status) := by
  simp only [url_read]
  rw [if_pos ⟨h4, h5⟩]

/-- C9 witness: a 404 response fails with the errorful-status-code error
carrying 404. -/
theorem url_read_errorful_status_witness :
    400 ≤ resp404.status ∧ resp404.status ≤ 599 ∧
    url_read "https://example.com/x" undeclaredReaderConfig
        (FetchOutcome.response resp404) =
      Except.error (WordListGenerationError.WebPageErrorfulStatusCode 404) :=
  ⟨by decide, by decide,
    url_read_errorful_status "https://example.com/x" undeclaredReaderConfig
      resp404 (by decide) (by decide)⟩

/-- C10: on a successful URL read the filetype of the `ReadResult` is the
declared filetype when the reader configuration declares one, and otherwise the
one derived from the response's MIME type — `text/plain` gives `PlainText`,
`text/html` gives `HTML`, and any other MIME type gives no filetype while the
read still succeeds with the response body as the buffer. -/
theorem url_read_success_filetype (url : String) (config : ReaderConfig)
    (resp : HttpResponse) (hs : ¬(400 ≤ resp.status ∧ resp.status ≤ 599))
    (m : Mime) (hm : resolvedContentType resp = some m) :
    url_read url config (FetchOutcome.response resp) =
      Except.ok
        ⟨resp.body, (config.file.filetype).or (filetype_from_mime m), none⟩ := by
  simp only [url_read]
  rw [if_neg hs]
  simp only [resolvedContentType] at hm
  cases hct : resp.content_type with
  | none => rw [hct] at hm; exact Option.noConfusion hm
  | some bytes =>
    rw [hct] at hm
    simp only [] at hm
    cases hstr : headerValueToStr bytes with
    | none => rw [hstr] at hm; exact Option.noConfusion hm
    | some s =>
      rw [hstr] at hm
      simp only [] at hm
      cases hmime : parseMime s with
      | none => rw [hmime] at hm; exact Option.noConfusion hm
      | some m2 =>
        rw [hmime] at hm
        injection hm with h2
        subst h2
        simp [hct, hstr, hmime]

/-- C10 witness: with no declared filetype and a `application/json` response,
the read succeeds and the `ReadResult` carries no filetype. -/
theorem url_read_success_filetype_witness :
    resolvedContentType respJson = some (Mime.mk "application" "json") ∧
    url_read "https://example.com/data" undeclaredReaderConfig
        (FetchOutcome.response respJson) =
      Except.ok ⟨"not text", none, none⟩ :=
  ⟨by decide,
    url_read_success_filetype "https://example.com/data" undeclaredReaderConfig
      respJson (by decide) (Mime.mk "application" "json") (by decide)⟩

end Stork
